import Mathlib

/-!
Verification development for the NPS IVR / SMS lead-intake service.

The definitions below are a shallow embedding of the Python sources:
  * `src/app/validation_rules.py` — the deterministic eligibility rule engine,
  * `src/app/validation.py`       — field validators / normalizers,
  * `src/app/models.py`           — required fields, `missing_fields`, ledger rows,
  * `src/app/llm.py`              — `process_turn` (the LLM extraction itself is
    external I/O and is passed in as an oracle: the raw extracted fields and the
    proposed next question),
  * `src/app/main.py`             — the `/twilio/sms` webhook step and session
    resolution,
  * `src/app/voice_openai.py`     — the voice bridge's `save_lead_field` ZIP
    cleaning, the `submit_lead` handling, session resolution and turn logging,
  * `src/manage_failed_leads.py`  — the operator retry tool.

Python strings are modelled as Lean `String`; all character-level operations
(containment, strip, lower, digit filtering) are defined here on `String.data`
so that every definition is executable and kernel-evaluable.  Python dicts used
as field maps are modelled as association lists with dict update semantics.
External effects (the NPA lead API, wall-clock time, DB commit success) are
explicit parameters.
-/

set_option maxRecDepth 100000

namespace NpsIvr

/-- Python truthiness of a string value (`bool(s)` = `s ≠ ""`). -/
def pyTruthy (s : String) : Bool := s ≠ ""

/-- Python truthiness of an optional string (`None` and `""` are falsy). -/
def optTruthy : Option String → Bool
  | none => false
  | some s => pyTruthy s

/-- Python `a or b` on strings: `a` if truthy, else `b`. -/
def pyOrS (a b : String) : String := if pyTruthy a then a else b

/-- `[a-zA-Z]` -/
def isAsciiAlpha (c : Char) : Bool := (('a' ≤ c && c ≤ 'z') || ('A' ≤ c && c ≤ 'Z'))

/-- The whitespace class of Python's `str.strip` / regex `\s` (ASCII part). -/
def isPySpace (c : Char) : Bool :=
  c = ' ' || c = '\t' || c = '\n' || c = '\x0d' || c = Char.ofNat 11 || c = Char.ofNat 12

/-- `list.dropWhile isPySpace` at both ends (Python `str.strip()`), on char lists. -/
def stripChars (l : List Char) : List Char :=
  ((l.dropWhile isPySpace).reverse.dropWhile isPySpace).reverse

/-- Python `s.strip()`. -/
def pyStrip (s : String) : String := ⟨stripChars s.data⟩

/-- Python `s.lower()` (ASCII case folding; the repository's data is ASCII). -/
def pyLower (s : String) : String := ⟨s.data.map Char.toLower⟩

/-- Whether `pat` is a prefix of `hay` (char lists). -/
def listIsPrefixOf : List Char → List Char → Bool
  | [], _ => true
  | _ :: _, [] => false
  | p :: ps, h :: hs => p = h && listIsPrefixOf ps hs

/-- Whether `pat` occurs as a contiguous sublist of `hay`. -/
def listContainsSub (pat : List Char) : List Char → Bool
  | [] => listIsPrefixOf pat []
  | h :: hs => listIsPrefixOf pat (h :: hs) || listContainsSub pat hs

/-- Python `pat in hay` for nonempty `pat` (substring containment). -/
def strContains (hay pat : String) : Bool := listContainsSub pat.data hay.data

/-- Python `hay.startswith(pat)`. -/
def strStartsWith (hay pat : String) : Bool := listIsPrefixOf pat.data hay.data

/-- Python `hay.startswith((p1, p2, ...))`. -/
def strStartsWithAny (hay : String) (pats : List String) : Bool :=
  pats.any (fun p => strStartsWith hay p)

/-- Python `len(s)` (code points). -/
def pyLen (s : String) : Nat := s.data.length

/-- Python `s.isdigit()` for ASCII strings: nonempty and all digits. -/
def pyIsDigit (s : String) : Bool := s.data ≠ [] && s.data.all Char.isDigit

/-- Python `re.sub(r'\D', '', s)`: keep only the digits of `s`. -/
def digitsOf (s : String) : String := ⟨s.data.filter Char.isDigit⟩

/-- Python `len(set(chars)) == 1`: a nonempty list whose members are all equal. -/
def allSameChar : List Char → Bool
  | [] => false
  | c :: rest => rest.all (fun d => d = c)

/-- Decimal value of a list of digit characters. -/
def digitsToNat (l : List Char) : Nat :=
  l.foldl (fun n c => n * 10 + (c.toNat - '0'.toNat)) 0

/-- Python `int(s)` on an optionally signed decimal literal with surrounding
whitespace; `none` models `ValueError`. -/
def pyParseInt (s : String) : Option Int :=
  let t := stripChars s.data
  match t with
  | '-' :: rest => if rest ≠ [] && rest.all Char.isDigit
      then some (-(Int.ofNat (digitsToNat rest))) else none
  | '+' :: rest => if rest ≠ [] && rest.all Char.isDigit
      then some (Int.ofNat (digitsToNat rest)) else none
  | _ => if t ≠ [] && t.all Char.isDigit
      then some (Int.ofNat (digitsToNat t)) else none

/-! ### Field maps

Python dicts keyed by field-name strings, with insertion-order-preserving
update semantics, modelled as association lists with unique keys. -/

/-- A session `state` map (collected fields). -/
abbrev StateMap := List (String × String)

/-- Python `m.get(k)` (`none` models `None`). -/
def mget : StateMap → String → Option String
  | [], _ => none
  | (k', v) :: rest, k => if k' = k then some v else mget rest k

/-- Python `m.get(k, d)`. -/
def mgetD (m : StateMap) (k d : String) : String := (mget m k).getD d

/-- Python `m[k] = v`: update in place if the key exists, else append. -/
def mset : StateMap → String → String → StateMap
  | [], k, v => [(k, v)]
  | (k', v') :: rest, k, v =>
      if k' = k then (k', v) :: rest else (k', v') :: mset rest k v

/-- Python `m.pop(k, None)`: the map without key `k`. -/
def mdrop : StateMap → String → StateMap
  | [], _ => []
  | (k', v') :: rest, k => if k' = k then rest else (k', v') :: mdrop rest k

/-- Python `{**m, **updates}` / repeated assignment: apply updates in order. -/
def msetAll (m : StateMap) (updates : List (String × String)) : StateMap :=
  updates.foldl (fun acc kv => mset acc kv.1 kv.2) m

/-! ### `src/app/validation_rules.py` — the eligibility rule engine -/

/-- `BRAND_MODEL_PATTERNS` of `validation_rules.py`: known model patterns per
brand, in source (dict insertion) order. -/
def BRAND_MODEL_PATTERNS : List (String × List String) :=
  [ ("honda", ["cbr", "crf", "cb", "shadow", "rebel", "goldwing", "africa twin", "rancher",
      "foreman", "rubicon", "pioneer", "talon", "rc51", "vtr"]),
    ("yamaha", ["yzf", "r1", "r6", "r7", "mt", "fz", "v-star", "bolt", "tenere", "wr", "yz",
      "grizzly", "raptor", "kodiak", "wolverine", "viking"]),
    ("kawasaki", ["ninja", "z", "zx", "vulcan", "versys", "klr", "kx", "brute force", "mule",
      "teryx", "ridge"]),
    ("suzuki", ["gsxr", "gsx", "hayabusa", "v-strom", "boulevard", "sv", "rm", "dr",
      "kingquad", "ozark"]),
    ("harley", ["street", "sportster", "iron", "forty-eight", "softail", "fat boy", "heritage",
      "deluxe", "road", "glide", "king", "electra", "ultra", "low rider", "dyna", "breakout"]),
    ("harley-davidson", ["street", "sportster", "iron", "forty-eight", "softail", "fat boy",
      "heritage", "deluxe", "road", "glide", "king", "electra", "ultra", "low rider", "dyna",
      "breakout"]),
    ("ducati", ["panigale", "monster", "multistrada", "streetfighter", "diavel", "scrambler",
      "supersport", "hypermotard"]),
    ("ktm", ["duke", "rc", "adventure", "smc", "sx", "exc", "xc"]),
    ("bmw", ["gs", "r1250", "r1200", "s1000", "f850", "f750", "k1600"]),
    ("triumph", ["bonneville", "street triple", "speed triple", "tiger", "rocket", "thruxton",
      "scrambler"]),
    ("polaris", ["ranger", "rzr", "sportsman", "scrambler", "slingshot", "general"]),
    ("can-am", ["maverick", "defender", "outlander", "renegade", "commander", "spyder"]),
    ("arctic cat", ["wildcat", "prowler", "alterra", "zr"]) ]

/-- `categorize_rejection` of `validation_rules.py`: map a rejection message to
an analytics category. -/
def categorize_rejection (rejection_message : String) : String :=
  let msg_lower := pyLower rejection_message
  if strContains msg_lower "alaska" || strContains msg_lower "hawaii" then "zip_code"
  else if strContains msg_lower "electric" then "electric"
  else if strContains msg_lower "slingshot" || strContains msg_lower "not interested" then
    "slingshot"
  else if strContains msg_lower "make and model don't match" || strContains msg_lower "mismatch"
    then "make_model_mismatch"
  else if strContains msg_lower "cruiser" || strContains msg_lower "metric" ||
      strContains msg_lower "side-by-side" || strContains msg_lower "atv" ||
      strContains msg_lower "dirt bike" || strContains msg_lower "scooter" then "vehicle_age"
  else "unknown"

/-- `validate_zip_code` of `validation_rules.py`: the service-area check.
Returns `(is_valid, error_message)`. -/
def validate_zip_code (zip_code : String) : Bool × Option String :=
  if !pyTruthy zip_code || pyLen zip_code ≠ 5 || !pyIsDigit zip_code then
    (false, some "ZIP code must be exactly 5 digits")
  else if strStartsWithAny zip_code ["995", "996", "997", "998", "999"] then
    (false, some "We don't currently service Alaska. We only service the continental United States.")
  else if strStartsWithAny zip_code ["967", "968"] then
    (false, some "We don't currently service Hawaii. We only service the continental United States.")
  else (true, none)

/-- `validate_vehicle_eligibility` of `validation_rules.py`: returns
`(is_eligible, rejection_message)`.  `year` is the already-parsed int. -/
def validate_vehicle_eligibility (year : Int) (make model : String)
    (vehicle_type : Option String) : Bool × Option String :=
  let make_lower := if pyTruthy make then pyLower make else ""
  let model_lower := if pyTruthy model then pyLower model else ""
  let vehicle_type_lower := match vehicle_type with
    | some t => if pyTruthy t then pyLower t else ""
    | none => ""
  -- Rule 1: Electric motorcycles - ALL years rejected
  let electric_brands := ["zero", "livewire", "live wire"]
  if electric_brands.any (fun b => strContains make_lower b) ||
     electric_brands.any (fun b => strContains model_lower b) then
    (false, some "We don't currently purchase electric motorcycles.")
  -- Rule 2: Slingshot - ALL years rejected
  else if strContains model_lower "slingshot" || strContains make_lower "slingshot" then
    (false, some "We are not interested in that unit.")
  else
  -- Rule 3: Domestic cruisers - 1999 and older
  let domestic_cruiser_brands := ["harley", "harley-davidson", "indian", "victory"]
  let is_domestic_cruiser := domestic_cruiser_brands.any (fun b => strContains make_lower b)
  let is_cruiser_type := vehicle_type_lower = "cruiser" || vehicle_type_lower = "domestic_cruiser"
  if (is_domestic_cruiser || is_cruiser_type) && year ≤ 1999 then
    (false, some ("We don't currently purchase domestic cruisers from " ++ toString year ++
      " and older."))
  else
  -- Rule 4: Metric motorcycles - 2005 and older
  let metric_brands := ["honda", "yamaha", "kawasaki", "suzuki", "ducati", "bmw", "triumph", "ktm"]
  let metric_models := ["cbr", "r1", "r6", "ninja", "gsxr", "gsx-r"]
  let is_metric := metric_brands.any (fun b => strContains make_lower b)
  let is_sport_model := metric_models.any (fun m => strContains model_lower m)
  let is_metric_type := ["sport_bike", "metric", "standard", "sportbike"].any
    (fun t => vehicle_type_lower = t)
  if (is_metric || is_sport_model || is_metric_type) && year ≤ 2005 &&
     !(["atv", "side_by_side", "utv", "dirt_bike"].any (fun t => vehicle_type_lower = t)) then
    (false, some ("We don't currently purchase metric motorcycles from " ++ toString year ++
      " and older."))
  else
  -- Rule 5: Side-by-side / UTV - 2009 and older
  let side_by_side_keywords := ["rzr", "maverick", "rhino", "teryx", "ranger", "mule", "gator"]
  let is_side_by_side := side_by_side_keywords.any (fun k => strContains model_lower k)
  let is_sxs_type := ["side_by_side", "sxs", "utv", "side-by-side"].any
    (fun t => vehicle_type_lower = t)
  if (is_side_by_side || is_sxs_type) && year ≤ 2009 then
    (false, some ("We don't currently purchase side-by-sides from " ++ toString year ++
      " and older."))
  else
  -- Rule 6: ATV - 2015 and older
  let atv_keywords := ["rancher", "grizzly", "sportsman", "outlander", "kodiak", "foreman",
    "rubicon"]
  let is_atv := atv_keywords.any (fun k => strContains model_lower k)
  let is_atv_type := ["atv", "quad", "four_wheeler"].any (fun t => vehicle_type_lower = t)
  if (is_atv || is_atv_type) && year ≤ 2015 then
    (false, some ("We don't currently purchase ATVs from " ++ toString year ++ " and older."))
  else
  -- Rule 7: Dirt bike / MX - 2015 and older
  let dirt_bike_keywords := ["crf", "yz", "kx", "rm", "sx", "exc", "xc", "mx"]
  let is_dirt_bike := dirt_bike_keywords.any (fun k => strContains model_lower k)
  let is_dirt_type := ["dirt_bike", "mx", "motocross", "dirtbike", "enduro"].any
    (fun t => vehicle_type_lower = t)
  if (is_dirt_bike || is_dirt_type) && year ≤ 2015 then
    (false, some ("We don't currently purchase dirt bikes from " ++ toString year ++
      " and older."))
  else
  -- Rule 8: Scooter - 2015 and older
  let scooter_keywords := ["metropolitan", "zuma", "vespa", "ruckus", "scoopy", "pcx"]
  let is_scooter := scooter_keywords.any (fun k => strContains model_lower k)
  let is_scooter_type := vehicle_type_lower = "scooter" || vehicle_type_lower = "moped"
  if (is_scooter || is_scooter_type) && year ≤ 2015 then
    (false, some ("We don't currently purchase scooters from " ++ toString year ++ " and older."))
  else (true, none)

/-- `categorize_vehicle_type` of `validation_rules.py`. -/
def categorize_vehicle_type (make model : String) : String :=
  let make_lower := if pyTruthy make then pyLower make else ""
  let model_lower := if pyTruthy model then pyLower model else ""
  if ["rzr", "maverick", "rhino", "teryx", "ranger", "mule", "gator"].any
      (fun k => strContains model_lower k) then "side_by_side"
  else if ["grizzly", "rancher", "sportsman", "outlander", "kodiak", "foreman"].any
      (fun k => strContains model_lower k) then "atv"
  else if ["crf", "yz", "kx", "rm", "sx", "exc"].any (fun k => strContains model_lower k) then
    "dirt_bike"
  else if ["metropolitan", "zuma", "ruckus"].any (fun k => strContains model_lower k) then
    "scooter"
  else if ["vespa"].any (fun k => strContains make_lower k) then "scooter"
  else if strContains model_lower "slingshot" then "slingshot"
  else if ["harley", "indian", "victory"].any (fun k => strContains make_lower k) then "cruiser"
  else if ["cbr", "r1", "r6", "ninja", "gsxr"].any (fun k => strContains model_lower k) then
    "sport_bike"
  else "unknown"

/-- `validate_make_model_match` of `validation_rules.py`: cross-brand model
dictionary lookup.  Returns `(is_valid, error_message)`. -/
def validate_make_model_match (make model : String) : Bool × Option String :=
  if !pyTruthy make || !pyTruthy model then (true, none)
  else
    let make_lower0 := pyLower (pyStrip make)
    let model_lower := pyLower (pyStrip model)
    let make_lower :=
      if strContains make_lower0 "harley" then "harley-davidson"
      else if strContains make_lower0 "can am" || strContains make_lower0 "canam" then "can-am"
      else make_lower0
    match BRAND_MODEL_PATTERNS.find? (fun p => p.1 = make_lower) with
    | none => (true, none)
    | some entry =>
      let known_patterns := entry.2
      let model_matches := known_patterns.any (fun p => strContains model_lower p)
      if !model_matches then
        let other := BRAND_MODEL_PATTERNS.find? (fun p =>
          p.1 ≠ make_lower && p.2.any (fun pat => strContains model_lower pat))
        match other with
        | some _ =>
          (false, some ("The " ++ model ++ " model doesn't match the " ++ make ++
            " brand. Please verify your vehicle information."))
        | none => (true, none)
      else (true, none)

/-! ### `src/app/validation.py` — field validators / normalizers -/

/-- Python `endswith` on char lists. -/
def listEndsWith (cs pat : List Char) : Bool := listIsPrefixOf pat.reverse cs.reverse

/-- One re.sub pattern step of `normalize_transcribed_email`: try to match
`\s+word\s+` (for the first `word` of `words` that fits) at the head of `cs`,
which is known to start with whitespace; on success return the remainder after
the greedily-consumed trailing whitespace. -/
def wsWordWsMatch (words : List (List Char)) (cs : List Char) : Option (List Char) :=
  let afterWs := cs.dropWhile isPySpace
  match words.find? (fun w => listIsPrefixOf w afterWs) with
  | none => none
  | some w =>
    let afterWord := afterWs.drop w.length
    match afterWord with
    | [] => none
    | d :: _ => if isPySpace d then some (afterWord.dropWhile isPySpace) else none

/-- `re.sub(r'\s+(w1|w2|...)\s+', repl, ·)` on char lists: leftmost,
non-overlapping matches, each replaced by the single char `repl`.  `fuel`
bounds the recursion and is instantiated with the list length (each step
consumes at least one character, so the bound is never hit). -/
def subWsWordsWsAux (words : List (List Char)) (repl : Char) :
    Nat → List Char → List Char
  | 0, cs => cs
  | _ + 1, [] => []
  | fuel + 1, c :: rest =>
    if isPySpace c then
      match wsWordWsMatch words (c :: rest) with
      | some rest' => repl :: subWsWordsWsAux words repl fuel rest'
      | none => c :: subWsWordsWsAux words repl fuel rest
    else c :: subWsWordsWsAux words repl fuel rest

/-- `re.sub(r'\s+(w1|...)\s+', repl, s)`. -/
def subWsWordsWs (words : List String) (repl : Char) (s : String) : String :=
  ⟨subWsWordsWsAux (words.map String.data) repl s.data.length s.data⟩

/-- `re.sub(pat ++ "$", repl, s)` for a literal `pat`: rewrite the end of the
string if it matches. -/
def subEndAnchor (pat repl : String) (s : String) : String :=
  if listEndsWith s.data pat.data then
    ⟨s.data.take (s.data.length - pat.data.length)⟩ ++ repl
  else s

/-- `normalize_transcribed_email` of `validation.py`: spoken-email
("tfox at yahoo dot com") normalization. -/
def normalize_transcribed_email (text : String) : String :=
  let t := pyLower (pyStrip text)
  let t := subWsWordsWs ["at"] '@' t
  let t := subWsWordsWs ["dot"] '.' t
  let t := subWsWordsWs ["dash", "hyphen"] '-' t
  let t := subWsWordsWs ["underscore"] '_' t
  let t : String := ⟨t.data.filter (fun c => c ≠ ' ')⟩
  let t := subEndAnchor "@gmail" "@gmail.com" t
  let t := subEndAnchor "@yahoo" "@yahoo.com" t
  let t := subEndAnchor "@hotmail" "@hotmail.com" t
  let t := subEndAnchor "@outlook" "@outlook.com" t
  let t := subEndAnchor "@icloud" "@icloud.com" t
  let t := subEndAnchor "@aol" "@aol.com" t
  let t := subEndAnchor "@protonmail" "@protonmail.com" t
  let t := subEndAnchor "@msn" "@msn.com" t
  t

/-- Character class `[a-zA-Z0-9._%+-]` of `EMAIL_PATTERN`. -/
def isEmailLocalChar (c : Char) : Bool :=
  c.isAlphanum || c = '.' || c = '_' || c = '%' || c = '+' || c = '-'

/-- Character class `[a-zA-Z0-9.-]` of `EMAIL_PATTERN`. -/
def isEmailDomainChar (c : Char) : Bool := c.isAlphanum || c = '.' || c = '-'

/-- Whether `cs` matches `[a-zA-Z0-9.-]+\.[a-zA-Z]{2,}` exactly: some dot
splits it into a nonempty domain-char part and a trailing all-alpha part of
length ≥ 2 (the backtracking regex engine tries every dot position). -/
def emailDomainTail (cs : List Char) : Bool :=
  (List.range cs.length).any (fun i =>
    decide (1 ≤ i) && (cs.take i).all isEmailDomainChar &&
    cs.getD i ' ' = '.' &&
    decide (2 ≤ (cs.drop (i + 1)).length) && (cs.drop (i + 1)).all isAsciiAlpha)

/-- `EMAIL_PATTERN.match(s)` of `validation.py`:
`^[a-zA-Z0-9._%+-]+@[a-zA-Z0-9.-]+\.[a-zA-Z]{2,}$`.  None of the classes
contain `@`, so a match forces exactly one `@`. -/
def emailPatternMatch (s : String) : Bool :=
  let cs := s.data
  if cs.count '@' ≠ 1 then false
  else
    let llocal := cs.takeWhile (fun c => c ≠ '@')
    let rest := (cs.dropWhile (fun c => c ≠ '@')).drop 1
    llocal ≠ [] && llocal.all isEmailLocalChar && emailDomainTail rest

/-- `validate_email` of `validation.py`. -/
def validate_email (email0 : String) : Bool × Option String :=
  if !pyTruthy email0 || !pyTruthy (pyStrip email0) then
    (false, some "I didn't catch your email address")
  else
    let email := pyStrip email0
    if 254 < pyLen email then (false, some "that email address is too long")
    else if pyLen email < 3 then
      (false, some "that doesn't seem like a complete email address")
    else if !strContains email "@" then
      (false, some "I didn't hear the 'at' symbol in your email address")
    else if 1 < email.data.count '@' then
      (false, some "I heard multiple 'at' symbols in your email")
    else
      -- split('@') has exactly two parts here (exactly one '@')
      let llocal : String := ⟨email.data.takeWhile (fun c => c ≠ '@')⟩
      let domain : String := ⟨(email.data.dropWhile (fun c => c ≠ '@')).drop 1⟩
      if !pyTruthy llocal then
        (false, some "I didn't hear the part before the 'at' symbol")
      else if !pyTruthy domain then
        (false, some "I didn't hear the domain after the 'at' symbol")
      else if !strContains domain "." then
        (false, some "the email domain needs a 'dot' like 'gmail dot com'")
      else if !emailPatternMatch email then
        (false, some "that email format doesn't look right")
      else (true, none)

/-- `normalize_phone` of `validation.py`: digits, strip a leading `1` of 11,
format 10 digits as `(555) 123-4567`, else return the input unchanged. -/
def normalize_phone (text : String) : String :=
  let digits0 := (digitsOf text).data
  let digits := if digits0.length = 11 && digits0.getD 0 ' ' = '1'
    then digits0.drop 1 else digits0
  if digits.length = 10 then
    "(" ++ ⟨digits.take 3⟩ ++ ") " ++ ⟨(digits.drop 3).take 3⟩ ++ "-" ++ ⟨digits.drop 6⟩
  else text

/-- `validate_phone` of `validation.py`: US/Canada phone validation. -/
def validate_phone (phone0 : String) : Bool × Option String :=
  if !pyTruthy phone0 || !pyTruthy (pyStrip phone0) then
    (false, some "Phone number cannot be empty")
  else
    let phone := pyStrip phone0
    let digits0 := (digitsOf phone).data
    if digits0.length = 11 && digits0.getD 0 ' ' ≠ '1' then
      (false, some "11-digit numbers must start with 1")
    else
      let digits := if digits0.length = 11 then digits0.drop 1 else digits0
      if digits.length ≠ 10 then
        (false, some ("Phone number must be 10 digits (found " ++ toString digits.length ++
          "). Please provide a valid US phone number"))
      else if digits.getD 0 ' ' = '0' || digits.getD 0 ' ' = '1' then
        (false, some "Area code cannot start with 0 or 1")
      else
        let is_555_number := digits.take 3 = ['5', '5', '5']
        if !is_555_number && (digits.getD 3 ' ' = '0' || digits.getD 3 ' ' = '1') then
          (false, some "Exchange code cannot start with 0 or 1")
        else if allSameChar digits then
          (false, some "Phone number appears invalid (all same digits)")
        else (true, none)

/-- `validate_vehicle_year` of `validation.py`.  The source reads the wall
clock (`datetime.now().year`); it is passed in as `current_year`. -/
def validate_vehicle_year (current_year : Int) (year : String) : Bool × Option String :=
  if !pyTruthy year || !pyTruthy (pyStrip year) then
    (false, some "I didn't catch the vehicle year")
  else
    let year_str := pyStrip year
    match pyParseInt year_str with
    | none => (false, some "the vehicle year should be a number like 2020 or 1999")
    | some year_int =>
      if year_int < 1000 || 9999 < year_int then
        (false, some "the vehicle year should be a 4-digit year")
      else
        let max_year := current_year + 1
        if year_int < 1950 then
          (false, some "the vehicle year seems too old. We typically handle vehicles from 1950 onwards")
        else if max_year < year_int then
          (false, some ("the vehicle year can't be later than " ++ toString max_year))
        else (true, none)

/-- `validate_and_normalize_field` of `validation.py`:
`(normalized_value, is_valid, error_message)`. -/
def validate_and_normalize_field (current_year : Int) (field_name value0 : String) :
    String × Bool × Option String :=
  let value := pyStrip value0
  if field_name = "email" then
    let normalized := normalize_transcribed_email value
    let v := validate_email normalized
    (normalized, v.1, v.2)
  else if field_name = "phone" then
    let normalized := normalize_phone value
    let v := validate_phone normalized
    (normalized, v.1, v.2)
  else if field_name = "vehicle_year" then
    let v := validate_vehicle_year current_year value
    (value, v.1, v.2)
  else (value, true, none)

/-! ### `src/app/models.py` — required fields and `missing_fields` -/

/-- `REQUIRED_FIELDS` of `models.py`. -/
def REQUIRED_FIELDS : List String :=
  ["full_name", "zip_code", "phone", "email", "vehicle_make", "vehicle_model", "vehicle_year"]

/-- `FIELD_PRETTY` of `models.py`. -/
def FIELD_PRETTY : List (String × String) :=
  [("full_name", "Full Name"), ("zip_code", "ZIP Code"), ("phone", "Phone"),
   ("email", "Email"), ("vehicle_make", "Make of Vehicle"),
   ("vehicle_model", "Model of Vehicle"), ("vehicle_year", "Year of Vehicle")]

/-- `FIELD_PRETTY.get(f, f)`. -/
def fieldPrettyD (f : String) : String :=
  match FIELD_PRETTY.find? (fun p => p.1 = f) with
  | some p => p.2
  | none => f

/-- Python truthiness of `state.get(f) and str(state.get(f)).strip()`:
the field is filled iff present, nonempty and not whitespace-only. -/
def fieldFilled (state : StateMap) (f : String) : Bool :=
  match mget state f with
  | none => false
  | some v => pyTruthy v && pyTruthy (pyStrip v)

/-- `missing_fields` of `models.py`. -/
def missing_fields (state : StateMap) : List String :=
  REQUIRED_FIELDS.filter (fun f => !fieldFilled state f)

/-! ### `src/app/llm.py` — the slot-filling turn (`process_turn`)

`extract_and_prompt` calls the external LLM; the LLM's reply (the raw JSON
field map `data` and its optional `next_question`) is an oracle parameter.
Everything after that reply is deterministic and embedded faithfully. -/

/-- `DEFAULT_QUESTIONS` of `llm.py`. -/
def DEFAULT_QUESTIONS : List (String × String) :=
  [("full_name", "What is your full name?"),
   ("zip_code", "What is your ZIP code?"),
   ("phone", "What is the best phone number to reach you?"),
   ("email", "What is your email address?"),
   ("vehicle_make", "What is the make of the vehicle?"),
   ("vehicle_model", "What is the model of the vehicle?"),
   ("vehicle_year", "What is the year of the vehicle?")]

/-- `[a-zA-Z0-9_]`: a regex word character (`\b` boundaries). -/
def isWordChar (c : Char) : Bool := c.isAlphanum || c = '_'

/-- `YEAR_RE.search`: the first occurrence of `\b(19\d{2}|20\d{2})\b`.
`prevW` records whether the character before the current position is a word
character (no match can start there). -/
def yearSearchAux : Bool → List Char → Option String
  | _, [] => none
  | prevW, c :: rest =>
    let here : Option String :=
      match c :: rest with
      | a :: b :: c2 :: d :: tail =>
        if !prevW && ((a = '1' && b = '9') || (a = '2' && b = '0')) &&
           c2.isDigit && d.isDigit &&
           (match tail with | [] => true | e :: _ => !isWordChar e) then
          some ⟨[a, b, c2, d]⟩
        else none
      | _ => none
    match here with
    | some y => some y
    | none => yearSearchAux (isWordChar c) rest

/-- `YEAR_RE.search(s)` returning the matched group. -/
def yearSearch (s : String) : Option String := yearSearchAux false s.data

/-- `normalize_fields` of `llm.py`: strip values, drop empties, and replace a
`vehicle_year` value by its first embedded 4-digit year when one is found. -/
def normalize_fields (fields : List (String × String)) : StateMap :=
  fields.foldl (fun out kv =>
    let s := pyStrip kv.2
    if !pyTruthy s then out
    else
      let s := if kv.1 = "vehicle_year" then
          match yearSearch s with
          | some y => y
          | none => s
        else s
      mset out kv.1 s) []

/-- The deterministic tail of `extract_and_prompt` of `llm.py` (lines
137–148): keep the truthy extracted fields in `FIELD_PRETTY` key order, fall
back to the default question for the first missing field when the LLM gave no
`next_question`, and normalize the extracted fields. -/
def extract_and_prompt_core (data : List (String × String))
    (next_question : Option String) (state : StateMap) : StateMap × String :=
  let extracted : StateMap := FIELD_PRETTY.foldl (fun acc p =>
    match mget data p.1 with
    | some v => if pyTruthy v then mset acc p.1 v else acc
    | none => acc) []
  let next_q : String :=
    if optTruthy next_question then next_question.getD ""
    else
      match missing_fields (msetAll state extracted) with
      | f :: _ =>
        match DEFAULT_QUESTIONS.find? (fun p => p.1 = f) with
        | some p => p.2
        | none => "Please provide " ++ fieldPrettyD f ++ "."
      | [] => ""
  (normalize_fields extracted, next_q)

/-- The business-rules chain inlined in `process_turn` of `llm.py` (lines
184–226): Rule 1 ZIP service area, then Rule 2 make/model match, then Rule 3
vehicle eligibility (with the inferred vehicle type); each later rule runs
only while `rejection_reason` is still falsy. -/
def evaluate_eligibility (new_state : StateMap) : Option String :=
  let zip_code := mgetD new_state "zip_code" ""
  let r1 : Option String :=
    if pyTruthy zip_code then
      let v := validate_zip_code zip_code
      if v.1 then none else v.2
    else none
  if optTruthy r1 then r1
  else
    let vehicle_make := mgetD new_state "vehicle_make" ""
    let vehicle_model := mgetD new_state "vehicle_model" ""
    let r2 : Option String :=
      if pyTruthy vehicle_make && pyTruthy vehicle_model then
        let v := validate_make_model_match vehicle_make vehicle_model
        if v.1 then none else v.2
      else none
    if optTruthy r2 then r2
    else
      let vehicle_year := mget new_state "vehicle_year"
      let r3 : Option String :=
        if optTruthy vehicle_year && pyTruthy vehicle_make && pyTruthy vehicle_model then
          let year_int := (pyParseInt (vehicle_year.getD "")).getD 0
          let vehicle_type := categorize_vehicle_type vehicle_make vehicle_model
          let v := validate_vehicle_eligibility year_int vehicle_make vehicle_model
            (some vehicle_type)
          if v.1 then none else v.2
        else none
      if optTruthy r3 then r3 else none

/-- The result of one `process_turn` call. `eligRan` instruments whether the
business-rules chain was evaluated this turn (the `done` branch of the
source). -/
structure TurnResult where
  state : StateMap
  reply : String
  done : Bool
  eligRan : Bool
deriving Repr, DecidableEq

/-- `process_turn` of `llm.py` (lines 151–239), with the LLM reply passed in
as oracle (`data`, `next_question`) and the wall-clock year as
`current_year`.  The Python code stores the boolean `True` under
`"_rejected"`; no code reads that key back, and it is modelled as the string
`"True"`. -/
def process_turn (current_year : Int) (data : List (String × String))
    (next_question : Option String) (state : StateMap) : TurnResult :=
  let ep := extract_and_prompt_core data next_question state
  let extracted := ep.1
  let next_q0 := ep.2
  let step := extracted.foldl (fun (acc : StateMap × List (String × String)) kv =>
    if pyTruthy kv.2 then
      let v := validate_and_normalize_field current_year kv.1 kv.2
      if v.2.1 then (mset acc.1 kv.1 v.1, acc.2)
      else (acc.1, acc.2 ++ [(kv.1, (v.2.2).getD "")])
    else acc) ([], [])
  let validated_fields := step.1
  let validation_errors := step.2
  let new_state := msetAll state validated_fields
  match validation_errors with
  | (field_name, error_msg) :: _ =>
    { state := new_state,
      reply := "Sorry, " ++ error_msg ++ ". Could you please provide your " ++
        fieldPrettyD field_name ++ " again?",
      done := false, eligRan := false }
  | [] =>
    let miss := missing_fields new_state
    if miss.isEmpty then
      match evaluate_eligibility new_state with
      | some rejection_reason =>
        if pyTruthy rejection_reason then
          { state := mset (mset new_state "_rejected" "True") "_rejection_reason"
              rejection_reason,
            reply := rejection_reason ++ " Thank you for your time.",
            done := true, eligRan := true }
        else
          { state := new_state,
            reply := "Thank you for your information. I will start a file here and one of our agents will reach out to you in the next 24 hours to grab further information regarding your vehicle.",
            done := true, eligRan := true }
      | none =>
        { state := new_state,
          reply := "Thank you for your information. I will start a file here and one of our agents will reach out to you in the next 24 hours to grab further information regarding your vehicle.",
          done := true, eligRan := true }
    else
      { state := new_state, reply := next_q0, done := false, eligRan := false }

/-! ### Persistent state: `ConversationSession` and the ledger tables
(`src/app/models.py`) -/

/-- A `conversation_sessions` row. -/
structure Session where
  id : Nat
  channel : String
  session_key : String
  from_number : Option String
  to_number : Option String
  state : StateMap
  last_prompt : Option String
  last_prompt_field : Option String
  status : String
deriving Repr, DecidableEq, Inhabited

/-- A `succeeded_leads` row. -/
structure SucceededLeadRow where
  lead_data : StateMap
  channel : String
  session_id : Option Nat
  npa_response : Option String
deriving Repr, DecidableEq, Inhabited

/-- A `failed_leads` row.  Column defaults of `models.py`: `retry_count = 0`,
`resolved = 0`. -/
structure FailedLeadRow where
  lead_data : StateMap
  error_message : String
  channel : String
  session_id : Option Nat
  retry_count : Nat
  last_retry_at : Option String
  resolved : Bool
deriving Repr, DecidableEq, Inhabited

/-- Constructing a `FailedLead(...)` without `retry_count`/`resolved`
arguments: the column defaults apply. -/
def mkFailedLead (lead_data : StateMap) (error_message channel : String)
    (session_id : Option Nat) : FailedLeadRow :=
  { lead_data, error_message, channel, session_id,
    retry_count := 0, last_retry_at := none, resolved := false }

/-- A `rejected_leads` row. -/
structure RejectedLeadRow where
  lead_data : StateMap
  rejection_reason : String
  rejection_category : String
  channel : String
  session_id : Option Nat
deriving Repr, DecidableEq, Inhabited

/-- The persisted tables reachable from the webhook handlers. -/
structure DB where
  sessions : List Session
  succeeded : List SucceededLeadRow
  failed : List FailedLeadRow
  rejected : List RejectedLeadRow
  nextId : Nat
deriving Repr, DecidableEq, Inhabited

/-- Replace the session with the same `id`. -/
def DB.updateSession (db : DB) (s : Session) : DB :=
  { db with sessions := db.sessions.map (fun t => if t.id = s.id then s else t) }

/-- How many ledger rows (Succeeded, Failed, Rejected) reference session
`sid`. -/
def ledgerRefCount (db : DB) (sid : Nat) : Nat :=
  (db.succeeded.filter (fun r => r.session_id = some sid)).length +
  (db.failed.filter (fun r => r.session_id = some sid)).length +
  (db.rejected.filter (fun r => r.session_id = some sid)).length

/-! ### `src/app/main.py` — session resolution and the `/twilio/sms` webhook -/

/-- `extract_caller_phone` of `main.py` (first tuple component, the
normalized number; the speech rendering is presentation-only). -/
def extract_caller_phone (from_number : Option String) : Option String :=
  match from_number with
  | none => none
  | some f =>
    if !pyTruthy f || f = "unknown" then none
    else if !(validate_phone f).1 then none
    else some (normalize_phone f)

/-- `get_or_create_session` of `main.py`: look up by `(channel, session_key)`
— with **no** filter on `status` — and create an open row when absent
(`status` column default `"open"`, `state = {}`). -/
def get_or_create_session (db : DB) (channel session_key : String)
    (from_number to_number : Option String) : Session × DB :=
  match db.sessions.find? (fun s => s.channel = channel && s.session_key = session_key) with
  | some s => (s, db)
  | none =>
    let s : Session := { id := db.nextId, channel, session_key, from_number, to_number,
                         state := [], last_prompt := none, last_prompt_field := none,
                         status := "open" }
    (s, { db with sessions := db.sessions ++ [s], nextId := db.nextId + 1 })

/-- The reset keywords of `twilio_sms` (substring match on the lowered
body). -/
def RESET_KEYWORDS : List String :=
  ["hi", "hello", "restart", "reset", "start over", "start again", "begin"]

/-- The SMS welcome / reset greeting of `twilio_sms`. -/
def SMS_WELCOME : String :=
  "Thank you for calling National Powersport Buyers, where we make selling your powersport vehicle stress free. I am an AI assistant and I will start the process of selling your vehicle. What's your full name?"

/-- The outcome of one `/twilio/sms` request.  `reply = none` models the
unhandled exception path (`create_lead` raised; FastAPI answers 500 and the
uncommitted session mutations are rolled back when the DB session closes). -/
structure SmsStepResult where
  db : DB
  reply : Option String
  apiCalled : Bool
  eligRan : Bool
deriving Repr, DecidableEq

/-- `twilio_sms` of `main.py` (lines 146–223), one inbound SMS.  External
inputs: the LLM reply (`llm_data`, `llm_next_q`), the NPA lead API outcome
(`api`: `.ok` = returned, `.error` = raised) and the wall-clock year. -/
def twilio_sms_step (current_year : Int) (db0 : DB) (from_number to_number body0 : String)
    (llm_data : List (String × String)) (llm_next_q : Option String)
    (api : Except String (Option String)) : SmsStepResult :=
  let body := pyStrip body0
  let session_key := from_number
  let gc := get_or_create_session db0 "sms" session_key (some from_number) (some to_number)
  let session := gc.1
  let db := gc.2
  if RESET_KEYWORDS.any (fun k => strContains (pyLower body) k) then
    let s1 := { session with
                state := ([] : StateMap), last_prompt_field := some "full_name",
                last_prompt := some "What's your full name?", status := "open" }
    { db := db.updateSession s1, reply := some SMS_WELCOME,
      apiCalled := false, eligRan := false }
  else
    let current_state0 := session.state
    let is_first_message := !optTruthy session.last_prompt_field
    let current_state :=
      if !optTruthy (mget current_state0 "phone") then
        match extract_caller_phone (some from_number) with
        | some caller_phone => mset current_state0 "phone" caller_phone
        | none => current_state0
      else current_state0
    if is_first_message then
      let s1 := { session with
                  state := current_state,
                  last_prompt_field := some "full_name",
                  last_prompt := some "What's your full name?" }
      { db := db.updateSession s1, reply := some SMS_WELCOME,
        apiCalled := false, eligRan := false }
    else
      let tr := process_turn current_year llm_data llm_next_q current_state
      let s1 :=
        if !tr.done then
          match missing_fields tr.state with
          | f :: _ => { session with last_prompt_field := some f, last_prompt := some tr.reply }
          | [] => session
        else session
      let s2 := { s1 with state := tr.state }
      if tr.done && session.status ≠ "closed" then
        -- `new_state["_channel"] = "sms"` mutates the dict `session.state`
        -- aliases, so the committed state carries `_channel` too
        let final_state := mset tr.state "_channel" "sms"
        match api with
        | .error _ =>
          { db := db, reply := none, apiCalled := true, eligRan := tr.eligRan }
        | .ok _ =>
          let s3 := { s2 with state := final_state, status := "closed" }
          { db := db.updateSession s3, reply := some tr.reply,
            apiCalled := true, eligRan := tr.eligRan }
      else
        { db := db.updateSession s2, reply := some tr.reply,
          apiCalled := false, eligRan := tr.eligRan }

/-! ### `src/app/voice_openai.py` — the voice bridge -/

/-- `TwilioMediaStreamHandler._get_or_create_session`: look up by channel
`"voice"`, the CallSid **and `status = "open"`** (only open sessions are
reused); create an open row when absent. -/
def voice_get_or_create_session (db : DB) (call_sid : String) : Session × DB :=
  match db.sessions.find? (fun s =>
      s.channel = "voice" && s.session_key = call_sid && s.status = "open") with
  | some s => (s, db)
  | none =>
    let s : Session := { id := db.nextId, channel := "voice", session_key := call_sid,
                         from_number := none, to_number := none, state := [],
                         last_prompt := none, last_prompt_field := none, status := "open" }
    (s, { db with sessions := db.sessions ++ [s], nextId := db.nextId + 1 })

/-- The ZIP cleaning/validation of the `save_lead_field` handler
(`voice_openai.py` lines 482–504): keep the digits, truncate ZIP+4 to the
first five, require exactly five, and reject Alaska/Hawaii prefixes.
`.error` is the validation error returned to the speech engine (the field is
not saved); `.ok` is the cleaned value that is saved. -/
def voice_clean_zip (field_value : String) : Except String String :=
  let zip_digits0 := digitsOf field_value
  let zip_digits := if 5 < pyLen zip_digits0 then (⟨zip_digits0.data.take 5⟩ : String)
    else zip_digits0
  if pyLen zip_digits ≠ 5 then
    .error ("Invalid ZIP code: need exactly 5 digits, got " ++ toString (pyLen zip_digits) ++
      ". Ask user to repeat all 5 digits.")
  else if strStartsWithAny zip_digits ["995", "996", "997", "998", "999"] then
    .error "We do not service Alaska. Ask user if they have a different address in the continental US."
  else if strStartsWithAny zip_digits ["967", "968"] then
    .error "We do not service Hawaii. Ask user if they have a different address in the continental US."
  else .ok zip_digits

/-- The dummy-email step of the `submit_lead` handler (`voice_openai.py`
lines 546–562): when the state has no truthy email, derive one from the
digits of `state.get("phone", "") or self.caller_phone or ""`; with no digits
available no email is added. -/
def voice_email_augment (st : StateMap) (caller_phone : Option String) : StateMap :=
  if !optTruthy (mget st "email") then
    let phone := pyOrS (mgetD st "phone" "") (caller_phone.getD "")
    let phone_digits := digitsOf phone
    if pyTruthy phone_digits then
      mset st "email" ("voice+" ++ phone_digits ++ "@powersportbuyers.com")
    else st
  else st

/-- Python `repr` of a list of strings (the `f"Missing fields: {miss}"`
rendering). -/
def pyListRepr (l : List String) : String :=
  "[" ++ String.intercalate ", " (l.map (fun s => "'" ++ s ++ "'")) ++ "]"

/-- The function-call output sent after a submission attempt (success and
failure alike send the success output; the failure is only logged). -/
def VOICE_SUBMIT_OUTPUT : String :=
  "Lead submitted successfully. NOW SAY THE GOODBYE MESSAGE: Thank you for your information. An agent will reach out to you within the next 24 hours. Have a great day, goodbye!"

/-- The outcome of handling one `submit_lead` function call. -/
structure VoiceSubmitResult where
  session : Session
  newSucceeded : List SucceededLeadRow
  newFailed : List FailedLeadRow
  apiCalled : Bool
  outputSuccess : Bool
  outputMessage : String
  hangupAfterResponse : Bool
deriving Repr, DecidableEq

/-- The `submit_lead` branch of
`TwilioMediaStreamHandler._handle_openai_messages` (`voice_openai.py` lines
541–648): dummy-email augmentation, the required-field check, the NPA call
(whose payload is the state without `sms_consent`), and the ledger/status
writes.  The handler consults neither `session.status` nor any
already-submitted marker before submitting. -/
def voice_submit_lead (session : Session) (caller_phone : Option String)
    (api : Except String (Option String)) : VoiceSubmitResult :=
  let st := voice_email_augment session.state caller_phone
  let s1 := { session with state := st }
  let miss := missing_fields st
  if miss.isEmpty then
    match api with
    | .ok _ =>
      { session := { s1 with status := "closed" },
        newSucceeded := [{ lead_data := st, channel := "voice",
                           session_id := some session.id,
                           -- `lead_result if isinstance(lead_result, dict) else None`:
                           -- `create_lead` returns a string id or None
                           npa_response := none }],
        newFailed := [],
        apiCalled := true, outputSuccess := true,
        outputMessage := VOICE_SUBMIT_OUTPUT, hangupAfterResponse := true }
    | .error e =>
      -- the session is NOT closed on this path (`status = "closed"` sits in
      -- the try block after `create_lead`)
      { session := s1, newSucceeded := [],
        newFailed := [mkFailedLead st e "voice" (some session.id)],
        apiCalled := true, outputSuccess := true,
        outputMessage := VOICE_SUBMIT_OUTPUT, hangupAfterResponse := true }
  else
    { session := s1, newSucceeded := [], newFailed := [],
      apiCalled := false, outputSuccess := false,
      outputMessage := "Missing fields: " ++ pyListRepr miss,
      hangupAfterResponse := false }

/-- `_log_conversation_turn` (`voice_openai.py` lines 217–245): the handler's
in-memory counter is incremented first; the row insert/commit may fail, and
the exception is swallowed (`except Exception: logger.error(...)`), so a
failed commit consumes a turn number without persisting a row. -/
def log_conversation_turn (counter : Nat) (rows : List Nat) (commitOk : Bool) :
    Nat × List Nat :=
  let n := counter + 1
  (n, if commitOk then rows ++ [n] else rows)

/-- The `turn_number`s persisted by one handler run (`self.turn_number = 0`
at construction) whose successive commits succeed or fail as `commits`
says. -/
def run_turn_logging (commits : List Bool) : List Nat :=
  (commits.foldl (fun acc ok => log_conversation_turn acc.1 acc.2 ok) (0, [])).2

/-- "strictly increasing starting at 1 with no gaps" for a session's persisted
`turn_number` column: the list is exactly `[1, 2, ..., n]`. -/
def turnNumbersContiguous (rows : List Nat) : Prop :=
  rows = List.range' 1 rows.length

/-! ### `src/manage_failed_leads.py` — the operator retry tool -/

/-- `retry_lead` of `manage_failed_leads.py` (lines 48–99) for an existing
row: `(updated_failed_row, new_succeeded_row?, returned_success)`.  `now`
stands for `datetime.utcnow()`. -/
def retry_lead (lead : FailedLeadRow) (api : Except String (Option String)) (now : String) :
    FailedLeadRow × Option SucceededLeadRow × Bool :=
  if lead.resolved then (lead, none, false)
  else
    match api with
    | .ok _ =>
      ({ lead with
         resolved := true, retry_count := lead.retry_count + 1,
         last_retry_at := some now },
       some { lead_data := lead.lead_data, channel := lead.channel,
              session_id := lead.session_id, npa_response := none },
       true)
    | .error e =>
      ({ lead with
         retry_count := lead.retry_count + 1, last_retry_at := some now,
         error_message := lead.error_message ++ "\n\nRetry " ++
           toString (lead.retry_count + 1) ++ " at " ++ now ++ ": " ++ e },
       none, false)

/-! ### Concrete scenario data -/

def timState : StateMap :=
  [("phone", "7205551234"), ("full_name", "Tim Fox"), ("zip_code", "30093"),
   ("vehicle_year", "2020"), ("vehicle_make", "Yamaha"), ("vehicle_model", "Grizzly")]

def timSession : Session :=
  { id := 7, channel := "voice", session_key := "CA123", from_number := none,
    to_number := none, state := timState, last_prompt := none,
    last_prompt_field := none, status := "open" }

def smsOkState : StateMap :=
  [("full_name", "Tim Fox"), ("zip_code", "30093"), ("phone", "(720) 555-1234"),
   ("email", "tim@example.com"), ("vehicle_make", "Yamaha"),
   ("vehicle_model", "Grizzly"), ("vehicle_year", "2020")]

def smsOkDb : DB :=
  { sessions := [{ id := 1, channel := "sms", session_key := "+15551234567",
                   from_number := some "+15551234567", to_number := some "+16198530829",
                   state := smsOkState, last_prompt := some "What is the year of the vehicle?",
                   last_prompt_field := some "vehicle_year", status := "open" }],
    succeeded := [], failed := [], rejected := [], nextId := 2 }

def smsOkR1 : SmsStepResult :=
  twilio_sms_step 2026 smsOkDb "+15551234567" "+16198530829" "ok" [] none (.ok (some "L1"))

def smsOkR2 : SmsStepResult :=
  twilio_sms_step 2026 smsOkR1.db "+15551234567" "+16198530829" "ok" [] none (.ok (some "L2"))

def smsZipState : StateMap :=
  [("full_name", "Tim Fox"), ("zip_code", "99501"), ("phone", "(720) 555-1234"),
   ("email", "tim@example.com"), ("vehicle_make", "Yamaha"),
   ("vehicle_model", "Grizzly"), ("vehicle_year", "2020")]

def smsZipDb : DB :=
  { sessions := [{ id := 1, channel := "sms", session_key := "+15551234567",
                   from_number := some "+15551234567", to_number := some "+16198530829",
                   state := smsZipState, last_prompt := some "What is the year of the vehicle?",
                   last_prompt_field := some "vehicle_year", status := "open" }],
    succeeded := [], failed := [], rejected := [], nextId := 2 }

def smsZipR : SmsStepResult :=
  twilio_sms_step 2026 smsZipDb "+15551234567" "+16198530829" "ok" [] none (.ok (some "L1"))

def closedSmsSession : Session :=
  { id := 1, channel := "sms", session_key := "+15551234567",
    from_number := some "+15551234567", to_number := some "+16198530829",
    state := smsOkState, last_prompt := some "What is the year of the vehicle?",
    last_prompt_field := some "vehicle_year", status := "closed" }

def closedSmsDb : DB :=
  { sessions := [closedSmsSession], succeeded := [], failed := [], rejected := [],
    nextId := 2 }

/-! ### C5: spec-side rule composition -/

/-- Spec §4.3 rule 1 ("Service-area check"), stated as a standalone rule: the
rejection the ZIP check yields on this state, `none` when it passes. -/
def spec_rule_service_area (st : StateMap) : Option String :=
  let zip_code := mgetD st "zip_code" ""
  if pyTruthy zip_code then
    let v := validate_zip_code zip_code
    if v.1 then none else v.2
  else none

/-- Spec §4.3 rule 2 ("Make/model plausibility") as a standalone rule. -/
def spec_rule_make_model (st : StateMap) : Option String :=
  let vehicle_make := mgetD st "vehicle_make" ""
  let vehicle_model := mgetD st "vehicle_model" ""
  if pyTruthy vehicle_make && pyTruthy vehicle_model then
    let v := validate_make_model_match vehicle_make vehicle_model
    if v.1 then none else v.2
  else none

/-- Spec §4.3 rule 3 ("Category/age eligibility") as a standalone rule. -/
def spec_rule_category_age (st : StateMap) : Option String :=
  let vehicle_make := mgetD st "vehicle_make" ""
  let vehicle_model := mgetD st "vehicle_model" ""
  let vehicle_year := mget st "vehicle_year"
  if optTruthy vehicle_year && pyTruthy vehicle_make && pyTruthy vehicle_model then
    let year_int := (pyParseInt (vehicle_year.getD "")).getD 0
    let vehicle_type := categorize_vehicle_type vehicle_make vehicle_model
    let v := validate_vehicle_eligibility year_int vehicle_make vehicle_model
      (some vehicle_type)
    if v.1 then none else v.2
  else none

/-- Spec §4.3's composition: "in this fixed order (first failing rule wins)". -/
def spec_first_failing : List (Option String) → Option String
  | [] => none
  | r :: rest => if optTruthy r then r else spec_first_failing rest

/-! ## Theorems -/

/-! ### Helper lemmas -/

theorem mget_mset_self (st : StateMap) (k v : String) : mget (mset st k v) k = some v := by
  induction st with
  | nil => simp [mset, mget]
  | cons h t ih =>
    by_cases e : h.1 = k
    · simp [mset, mget, e]
    · simp [mset, mget, e, ih]

theorem mget_mset_ne (st : StateMap) (k f v : String) (h : f ≠ k) :
    mget (mset st k v) f = mget st f := by
  induction st with
  | nil => simp [mset, mget, Ne.symm h]
  | cons hd t ih =>
    by_cases e : hd.1 = k
    · subst e
      simp [mset, mget, Ne.symm h]
    · simp [mset, mget, e, ih]

theorem fieldFilled_mset_ne (st : StateMap) (k f v : String) (h : f ≠ k) :
    fieldFilled (mset st k v) f = fieldFilled st f := by
  simp [fieldFilled, mget_mset_ne st k f v h]

theorem missing_fields_mset_notreq (st : StateMap) (k v : String)
    (h : k ∉ REQUIRED_FIELDS) : missing_fields (mset st k v) = missing_fields st := by
  unfold missing_fields
  refine List.filter_congr ?_
  intro f hf
  have hfk : f ≠ k := fun e => h (e ▸ hf)
  simp [fieldFilled_mset_ne st k f v hfk]

theorem mem_dropWhile_of_mem (p : Char → Bool) (c : Char) (l : List Char)
    (hc : p c = false) (hm : c ∈ l) : c ∈ l.dropWhile p := by
  induction l with
  | nil => cases hm
  | cons a t ih =>
    by_cases ha : p a
    · have hca : c ≠ a := fun e => by rw [e] at hc; rw [hc] at ha; cases ha
      have hm2 : c ∈ t := by
        rcases List.mem_cons.mp hm with e | h2
        · exact absurd e hca
        · exact h2
      simp [List.dropWhile_cons, ha]
      exact ih hm2
    · simp [List.dropWhile_cons, ha]
      exact List.mem_cons.mp hm

theorem dropWhile_ne_nil_of_mem (p : Char → Bool) (c : Char) (l : List Char)
    (hc : p c = false) (hm : c ∈ l) : l.dropWhile p ≠ [] :=
  List.ne_nil_of_mem (mem_dropWhile_of_mem p c l hc hm)

theorem stripChars_ne_nil (l : List Char) (c : Char) (hc : isPySpace c = false)
    (hm : c ∈ l) : stripChars l ≠ [] := by
  unfold stripChars
  have h1 : c ∈ l.dropWhile isPySpace := mem_dropWhile_of_mem _ c l hc hm
  have h2 : c ∈ (l.dropWhile isPySpace).reverse := List.mem_reverse.mpr h1
  have h3 : c ∈ ((l.dropWhile isPySpace).reverse.dropWhile isPySpace) :=
    mem_dropWhile_of_mem _ c _ hc h2
  intro e
  rw [List.reverse_eq_nil_iff] at e
  rw [e] at h3
  cases h3

/-- The session state a `submit_lead` handling leaves behind is always the
augmented one, whatever the API did. -/
theorem voice_submit_state (s : Session) (caller : Option String)
    (api : Except String (Option String)) :
    (voice_submit_lead s caller api).session.state = voice_email_augment s.state caller := by
  simp only [voice_submit_lead]
  split
  · cases api <;> rfl
  · rfl

/-- `submit_lead` calls the lead API iff the augmented state has no missing
required fields. -/
theorem voice_submit_apiCalled (s : Session) (caller : Option String)
    (api : Except String (Option String)) :
    (voice_submit_lead s caller api).apiCalled =
      (missing_fields (voice_email_augment s.state caller)).isEmpty := by
  simp only [voice_submit_lead]
  split
  · rename_i h
    cases api <;> simp [h]
  · rename_i h
    simp [Bool.not_eq_true] at h
    simp [h]

/-- `submit_lead` reports success iff the augmented state is complete. -/
theorem voice_submit_outputSuccess (s : Session) (caller : Option String)
    (api : Except String (Option String)) :
    (voice_submit_lead s caller api).outputSuccess =
      (missing_fields (voice_email_augment s.state caller)).isEmpty := by
  simp only [voice_submit_lead]
  split
  · rename_i h
    cases api <;> simp [h]
  · rename_i h
    simp [Bool.not_eq_true] at h
    simp [h]

theorem voice_email_augment_pos (st : StateMap) (caller : Option String)
    (hE : optTruthy (mget st "email") = false)
    (hd : pyTruthy (digitsOf (pyOrS (mgetD st "phone" "") (caller.getD ""))) = true) :
    voice_email_augment st caller =
      mset st "email" ("voice+" ++ digitsOf (pyOrS (mgetD st "phone" "") (caller.getD "")) ++
        "@powersportbuyers.com") := by
  simp [voice_email_augment, hE, hd]

theorem voice_email_augment_neg (st : StateMap) (caller : Option String)
    (hE : optTruthy (mget st "email") = false)
    (hd : pyTruthy (digitsOf (pyOrS (mgetD st "phone" "") (caller.getD ""))) = false) :
    voice_email_augment st caller = st := by
  simp [voice_email_augment, hE, hd]

/-! ### C1 -/

/-- C1: the code's behavior at the failing input refutes the claim: an SMS
session whose fields are all collected with postal code "99501" completes the
turn as rejected (`_rejected` is set), yet the handler still calls the lead
API and writes no Rejected ledger row. -/
theorem C1_sms_zip_rejection_behavior :
    mget smsZipState "zip_code" = some "99501" ∧
    missing_fields smsZipState = [] ∧
    mget (smsZipR.db.sessions.headD default).state "_rejected" = some "True" ∧
    (smsZipR.db.sessions.headD default).status = "closed" ∧
    smsZipR.apiCalled = true ∧
    smsZipR.db.rejected = [] := by
  refine ⟨by decide, by decide, by decide, by decide, by decide, by decide⟩

/-! ### C2 -/

/-- C2: the code's behavior at the failing input refutes the claim: the SMS
close path writes no ledger row at all, so this closed session has zero
(not exactly one) Succeeded/Failed/Rejected entries referencing it. -/
theorem C2_closed_sms_session_ledger :
    (smsOkR1.db.sessions.headD default).id = 1 ∧
    (smsOkR1.db.sessions.headD default).status = "closed" ∧
    ledgerRefCount smsOkR1.db 1 = 0 := by
  refine ⟨by decide, by decide, by decide⟩

/-! ### C3 -/

/-- C3 counterexample: the SMS resolver (`get_or_create_session`) filters only
on `(channel, session_key)`, so on a database holding a closed session for the
key it returns that closed session (same row id, no new row), and the SMS
reset-keyword path ("hi") sets the closed session's status back to "open". -/
theorem C3_counterexample :
    (get_or_create_session closedSmsDb "sms" "+15551234567"
        (some "+15551234567") (some "+16198530829")).1.status = "closed" ∧
    (get_or_create_session closedSmsDb "sms" "+15551234567"
        (some "+15551234567") (some "+16198530829")).1.id = closedSmsSession.id ∧
    (get_or_create_session closedSmsDb "sms" "+15551234567"
        (some "+15551234567") (some "+16198530829")).2.sessions.length = 1 ∧
    ((twilio_sms_step 2026 closedSmsDb "+15551234567" "+16198530829" "hi" [] none
        (.ok none)).db.sessions.headD default).status = "open" := by
  refine ⟨by decide, by decide, by decide, by decide⟩

/-- C3 amended: the voice resolver never returns a closed session (it filters
on status "open" and creates open rows), but the SMS resolver returns the
stored session for the key regardless of status, and the SMS reset path
reopens a closed session. -/
theorem C3_amended_resolution :
    (∀ (db : DB) (call_sid : String),
       (voice_get_or_create_session db call_sid).1.status = "open") ∧
    (get_or_create_session closedSmsDb "sms" "+15551234567"
        (some "+15551234567") (some "+16198530829")).1 = closedSmsSession ∧
    ((twilio_sms_step 2026 closedSmsDb "+15551234567" "+16198530829" "hi" [] none
        (.ok none)).db.sessions.headD default).status = "open" := by
  refine ⟨?_, by decide, by decide⟩
  intro db call_sid
  unfold voice_get_or_create_session
  cases h : db.sessions.find? (fun s =>
      s.channel = "voice" && s.session_key = call_sid && s.status = "open") with
  | none => simp [h]
  | some s =>
    have hp := List.find?_some h
    simp only [Bool.and_eq_true, decide_eq_true_eq] at hp
    simp [h, hp.2]

/-! ### C4 -/

/-- C4 counterexample: a voice session just closed by a successful
`submit_lead` is fed a second `submit_lead` event; the handler checks no
closed-session guard and calls the lead API again. -/
theorem C4_counterexample :
    (voice_submit_lead timSession none (.ok (some "L1"))).session.status = "closed" ∧
    (voice_submit_lead (voice_submit_lead timSession none (.ok (some "L1"))).session
        none (.ok (some "L2"))).apiCalled = true := by
  refine ⟨by decide, by decide⟩

/-- C4 amended: the SMS handler's `status != "closed"` guard means no inbound
message to an already-closed SMS session triggers a lead API call; the voice
`submit_lead` handler has no such guard, and a second `submit_lead` event on
the closed session of the accepted scenario calls the API again, whatever the
API then answers. -/
theorem C4_amended_at_most_once (current_year : Int) (db : DB)
    (from_number to_number body : String) (data : List (String × String))
    (nq : Option String) (api api2 : Except String (Option String))
    (h : (get_or_create_session db "sms" from_number (some from_number)
           (some to_number)).1.status = "closed") :
    (twilio_sms_step current_year db from_number to_number body data nq api).apiCalled
        = false ∧
    (voice_submit_lead (voice_submit_lead timSession none (.ok (some "L1"))).session
        none api2).apiCalled = true := by
  constructor
  · simp only [twilio_sms_step]
    split
    · rfl
    · split
      · rfl
      · simp [h]
  · rw [voice_submit_apiCalled]
    decide

/-- C4 witness: the amended theorem applied at a concrete closed SMS
session. -/
theorem C4_amended_witness :
    (twilio_sms_step 2026 closedSmsDb "+15551234567" "+16198530829" "ok" [] none
        (.ok none)).apiCalled = false ∧
    (voice_submit_lead (voice_submit_lead timSession none (.ok (some "L1"))).session
        none (.error "boom")).apiCalled = true :=
  C4_amended_at_most_once 2026 closedSmsDb "+15551234567" "+16198530829" "ok" [] none
    (.ok none) (.error "boom") (by decide)

/-! ### C5 -/

/-- C5 counterexample: "runs exactly once per session" fails: the first inbound
message completes and closes the session with the rules evaluated, and a
second inbound message on the same (now closed, sole) session evaluates the
rules again. -/
theorem C5_counterexample :
    smsOkR1.eligRan = true ∧
    (smsOkR1.db.sessions.headD default).status = "closed" ∧
    smsOkR2.eligRan = true ∧
    smsOkR2.db.sessions.length = 1 ∧
    smsOkR2.apiCalled = false := by
  refine ⟨by decide, by decide, by decide, by decide, by decide⟩

/-- C5 amended: the evaluation is the pure first-failing composition of the
service-area, make/model and category/age rules in that order; it runs exactly
when a turn completes (all required fields present, no validation error) — so
on every completed turn, not once per session — and a completed turn's state
indeed has no missing required field. -/
theorem C5_amended_eligibility :
    (∀ st : StateMap, evaluate_eligibility st =
        spec_first_failing [spec_rule_service_area st, spec_rule_make_model st,
          spec_rule_category_age st]) ∧
    (∀ (cy : Int) (data : List (String × String)) (nq : Option String) (st : StateMap),
        (process_turn cy data nq st).eligRan = (process_turn cy data nq st).done) ∧
    (∀ (cy : Int) (data : List (String × String)) (nq : Option String) (st : StateMap),
        (process_turn cy data nq st).done = true →
        missing_fields (process_turn cy data nq st).state = []) := by
  refine ⟨?_, ?_, ?_⟩
  · intro st
    rfl
  · intro cy data nq st
    unfold process_turn
    dsimp only
    split
    · rfl
    · split
      · split
        · split <;> rfl
        · rfl
      · rfl
  · intro cy data nq st
    unfold process_turn
    dsimp only
    split
    · intro h
      cases h
    · split
      · rename_i hm
        split
        · split
          · intro _
            rw [missing_fields_mset_notreq _ _ _ (by decide),
              missing_fields_mset_notreq _ _ _ (by decide)]
            exact List.isEmpty_iff.mp hm
          · intro _
            exact List.isEmpty_iff.mp hm
        · intro _
          exact List.isEmpty_iff.mp hm
      · intro h
        cases h

/-- C5 witness: the gating conjunct applied at the concrete completed turn of
the accepted SMS scenario. -/
theorem C5_amended_witness :
    missing_fields (process_turn 2026 [] none smsOkState).state = [] :=
  C5_amended_eligibility.2.2 2026 [] none smsOkState (by decide)

/-! ### C6 -/

/-- C6: ZIP round-trip: the voice `save_lead_field` cleaner normalizes
"30093-1234" to "30093", which the service-area check accepts; "99501" fails
the service-area check and both its engine-side and voice-side rejection
messages categorize as "zip_code". -/
theorem C6_zip_roundtrip :
    voice_clean_zip "30093-1234" = .ok "30093" ∧
    validate_zip_code "30093" = (true, none) ∧
    (validate_zip_code "99501").1 = false ∧
    ((validate_zip_code "99501").2.map categorize_rejection) = some "zip_code" ∧
    (∃ e, voice_clean_zip "99501" = .error e ∧ categorize_rejection e = "zip_code") := by
  refine ⟨by rfl, by decide, by decide, by decide,
    ⟨"We do not service Alaska. Ask user if they have a different address in the continental US.",
      by rfl, by decide⟩⟩

/-! ### C7 -/

/-- C7: the accepted scenario: with name "Tim Fox", zip "30093", phone
"7205551234" and a 2020 Yamaha Grizzly, and no email ever collected (email is
the sole missing required field before submission), `submit_lead` calls the
API, closes the session and records one Succeeded row whose lead data carries
vehicle_make Yamaha, vehicle_model Grizzly, vehicle_year 2020. -/
theorem C7_accepted_voice_scenario :
    mget timState "email" = none ∧
    missing_fields timState = ["email"] ∧
    (voice_submit_lead timSession none (.ok (some "L1"))).apiCalled = true ∧
    (voice_submit_lead timSession none (.ok (some "L1"))).session.status = "closed" ∧
    (voice_submit_lead timSession none (.ok (some "L1"))).newSucceeded.map
        (fun r => (r.session_id, mget r.lead_data "vehicle_make",
          mget r.lead_data "vehicle_model", mget r.lead_data "vehicle_year")) =
      [(some 7, some "Yamaha", some "Grizzly", some "2020")] := by
  refine ⟨by decide, by decide, by decide, by decide, by decide⟩

/-! ### C8 -/

/-- C8 counterexample: with the second of three turn commits failing (the
exception is swallowed after the counter was already incremented), the
persisted turn numbers are [1, 3]: strictly increasing but with a gap, so not
contiguous from 1. -/
theorem C8_counterexample :
    run_turn_logging [true, false, true] = [1, 3] ∧
    ¬ turnNumbersContiguous (run_turn_logging [true, false, true]) := by
  constructor
  · decide
  · unfold turnNumbersContiguous
    decide

theorem run_turn_logging_aux (n : Nat) : ∀ (c : Nat) (rows : List Nat),
    (List.replicate n true).foldl (fun acc ok => log_conversation_turn acc.1 acc.2 ok)
      (c, rows) = (c + n, rows ++ List.range' (c + 1) n) := by
  induction n with
  | zero => intro c rows; simp
  | succ n ih =>
    intro c rows
    simp only [List.replicate_succ, List.foldl_cons]
    rw [show log_conversation_turn c rows true = (c + 1, rows ++ [c + 1]) from rfl]
    rw [ih (c + 1) (rows ++ [c + 1])]
    rw [List.range'_succ]
    simp only [Prod.mk.injEq]
    constructor
    · omega
    · simp [List.append_assoc]

/-- C8 amended: within a single handler run all of whose turn commits succeed,
the persisted turn numbers are exactly 1..n (strictly increasing, no gaps);
but a second handler run attached to the same session restarts numbering at 1
(rows [1] ++ [1]), and a failed commit leaves a gap (the counterexample). -/
theorem C8_amended_turn_numbers :
    (∀ n : Nat, run_turn_logging (List.replicate n true) = List.range' 1 n) ∧
    run_turn_logging [true] ++ run_turn_logging [true] = [1, 1] := by
  constructor
  · intro n
    unfold run_turn_logging
    rw [run_turn_logging_aux n 0 []]
    simp
  · decide

/-! ### C9 -/

/-- C9: retry semantics of the operator tool: only unresolved entries are
retried; a successful re-attempt marks the entry resolved and produces a
Succeeded row referencing the same session; a failed re-attempt increments
`retry_count`, appends the new error text and leaves the entry unresolved;
and a freshly created Failed entry starts with `retry_count = 0`. -/
theorem C9_retry_semantics (lead : FailedLeadRow) (resp : Option String) (e now : String)
    (h : lead.resolved = false) :
    ((retry_lead lead (.ok resp) now).1.resolved = true ∧
     (retry_lead lead (.ok resp) now).1.retry_count = lead.retry_count + 1 ∧
     (retry_lead lead (.ok resp) now).2.1 =
       some { lead_data := lead.lead_data, channel := lead.channel,
              session_id := lead.session_id, npa_response := none } ∧
     (retry_lead lead (.ok resp) now).2.2 = true) ∧
    ((retry_lead lead (.error e) now).1.resolved = false ∧
     (retry_lead lead (.error e) now).1.retry_count = lead.retry_count + 1 ∧
     (retry_lead lead (.error e) now).2.1 = none ∧
     (retry_lead lead (.error e) now).2.2 = false ∧
     (∃ tail, (retry_lead lead (.error e) now).1.error_message =
        lead.error_message ++ tail ++ e)) ∧
    ((mkFailedLead lead.lead_data e lead.channel lead.session_id).retry_count = 0 ∧
     (mkFailedLead lead.lead_data e lead.channel lead.session_id).resolved = false) := by
  refine ⟨?_, ?_, by simp [mkFailedLead]⟩
  · simp [retry_lead, h]
  · refine ⟨by simp [retry_lead, h], by simp [retry_lead, h], by simp [retry_lead, h],
      by simp [retry_lead, h], ?_⟩
    refine ⟨"\n\nRetry " ++ toString (lead.retry_count + 1) ++ " at " ++ now ++ ": ", ?_⟩
    simp [retry_lead, h, String.append_assoc]

/-- C9 witness: the retry semantics applied to a freshly created Failed
entry. -/
theorem C9_retry_witness :
    (retry_lead (mkFailedLead [("full_name", "Tim Fox")] "timeout" "voice" (some 3))
        (.error "boom") "2026-02-03").1.retry_count = 1 ∧
    (retry_lead (mkFailedLead [("full_name", "Tim Fox")] "timeout" "voice" (some 3))
        (.ok (some "L5")) "2026-02-03").1.resolved = true := by
  have h := C9_retry_semantics
    (mkFailedLead [("full_name", "Tim Fox")] "timeout" "voice" (some 3))
    (some "L5") "boom" "2026-02-03" rfl
  exact ⟨h.2.1.2.1, h.1.1⟩

/-! ### C10 -/

/-- C10: on `submit_lead` with no email in the state: when the phone source
(`state.get("phone", "") or caller_phone or ""`) has at least one digit, the
handler writes the synthetic email voice+<digits>@powersportbuyers.com into
the session state, that email satisfies the required-field check, and the
completeness check that gates the API call sees the augmented state; with no
phone digits available, the state is unchanged (no email) and the submission
is refused as missing fields. -/
theorem C10_voice_dummy_email (s : Session) (caller : Option String)
    (api : Except String (Option String))
    (hE : optTruthy (mget s.state "email") = false) :
    (pyTruthy (digitsOf (pyOrS (mgetD s.state "phone" "") (caller.getD ""))) = true →
      mget (voice_submit_lead s caller api).session.state "email" =
        some ("voice+" ++ digitsOf (pyOrS (mgetD s.state "phone" "") (caller.getD "")) ++
          "@powersportbuyers.com") ∧
      fieldFilled (voice_submit_lead s caller api).session.state "email" = true ∧
      (voice_submit_lead s caller api).apiCalled =
        (missing_fields (voice_email_augment s.state caller)).isEmpty) ∧
    (pyTruthy (digitsOf (pyOrS (mgetD s.state "phone" "") (caller.getD ""))) = false →
      (voice_submit_lead s caller api).session.state = s.state ∧
      (voice_submit_lead s caller api).apiCalled = false ∧
      (voice_submit_lead s caller api).outputSuccess = false) := by
  constructor
  · intro hd
    have haug := voice_email_augment_pos s.state caller hE hd
    have hvmem : 'v' ∈ ("voice+" ++ digitsOf (pyOrS (mgetD s.state "phone" "")
        (caller.getD "")) ++ "@powersportbuyers.com").data := by
      rw [String.data_append, String.data_append]
      exact List.mem_append_left _ (List.mem_append_left _ (by decide))
    refine ⟨?_, ?_, voice_submit_apiCalled s caller api⟩
    · rw [voice_submit_state, haug, mget_mset_self]
    · rw [voice_submit_state, haug]
      unfold fieldFilled
      rw [mget_mset_self]
      have h1 : pyTruthy ("voice+" ++ digitsOf (pyOrS (mgetD s.state "phone" "")
          (caller.getD "")) ++ "@powersportbuyers.com") = true := by
        simp only [pyTruthy, ne_eq, decide_eq_true_eq]
        intro e
        rw [e] at hvmem
        cases hvmem
      have h2 : pyTruthy (pyStrip ("voice+" ++ digitsOf (pyOrS (mgetD s.state "phone" "")
          (caller.getD "")) ++ "@powersportbuyers.com")) = true := by
        simp only [pyTruthy, pyStrip, ne_eq, decide_eq_true_eq]
        intro e
        have hne := stripChars_ne_nil _ 'v' (by decide) hvmem
        exact hne (congrArg String.data e)
      dsimp only
      rw [h1, h2]
      rfl
  · intro hd
    have haug := voice_email_augment_neg s.state caller hE hd
    have hff : fieldFilled s.state "email" = false := by
      unfold fieldFilled
      cases hm : mget s.state "email" with
      | none => rfl
      | some v =>
        have hv : pyTruthy v = false := by
          unfold optTruthy at hE
          rw [hm] at hE
          exact hE
        simp [hv]
    have hmem : "email" ∈ missing_fields s.state := by
      unfold missing_fields
      exact List.mem_filter.mpr ⟨by decide, by simp [hff]⟩
    have hne : (missing_fields s.state).isEmpty = false := by
      cases h2 : missing_fields s.state with
      | nil => rw [h2] at hmem; cases hmem
      | cons a t => rfl
    refine ⟨?_, ?_, ?_⟩
    · rw [voice_submit_state, haug]
    · rw [voice_submit_apiCalled, haug, hne]
    · rw [voice_submit_outputSuccess, haug, hne]

/-- C10 witness: the accepted scenario's state (phone digits available) gets
the synthetic email; a state with neither phone nor email is refused. -/
theorem C10_witness :
    mget (voice_submit_lead timSession none (.ok (some "L1"))).session.state "email" =
      some "voice+7205551234@powersportbuyers.com" ∧
    (voice_submit_lead { timSession with state := [("full_name", "Tim Fox")] } none
        (.ok (some "L1"))).apiCalled = false := by
  have h1 := C10_voice_dummy_email timSession none (.ok (some "L1")) (by decide)
  have h2 := C10_voice_dummy_email { timSession with state := [("full_name", "Tim Fox")] }
    none (.ok (some "L1")) (by decide)
  exact ⟨(h1.1 (by decide)).1, (h2.2 (by decide)).2.1⟩

end NpsIvr
